import Mathlib

/-!
Shallow embedding of `src/bot.py` (a Telegram reminder + journal bot).

Modelling conventions:

* User-visible text is modelled as a list of characters (`Str := List Char`);
  Python string operations (`str.strip`, `str.split`, `" ".join`) are embedded
  below as `pyStrip`, `pySplit`, `joinSpace`.
* Instants are local Asia/Hong_Kong wall-clock seconds since the local epoch,
  as a `Nat`.  Hong Kong has a fixed `+08:00` UTC offset and no daylight-saving
  transitions, so wall-clock arithmetic and absolute-time arithmetic agree; the
  corresponding UTC wall-clock second count is the local one minus `8 * 3600`.
* The bot stores timestamps as `datetime.now(TIMEZONE).isoformat()` strings,
  e.g. `2025-12-01T08:30:00.123456+08:00`.  For a fixed offset these strings
  compare lexicographically exactly as the instants they denote compare
  chronologically (all fields are zero padded, and a string with the
  `.ffffff` fraction omitted sorts before any string with a nonzero fraction
  in the same second, because the `+` of the offset precedes `.` in ASCII),
  so the SQL `ORDER BY timestamp` is modelled as sorting by the `Nat` instant.
* SQLite tables are lists of row structures inside a `DB` structure; the
  `AUTOINCREMENT` id counters are carried explicitly.
-/

namespace Bot

/-- Text as a list of characters. -/
abbrev Str := List Char

/-- Whitespace for Python `str.strip` / `str.split` with no argument
(space, tab, line feed, carriage return, vertical tab, form feed;
the rare further Unicode whitespace code points are not used by any claim). -/
def isPyWs (c : Char) : Bool :=
  c == ' ' || c == '\t' || c == '\n' || c == '\r' || c == '\x0b' || c == '\x0c'

/-- Python `text.strip()`: remove leading and trailing whitespace
(`src/bot.py` line 69). -/
def pyStrip (s : Str) : Str :=
  ((s.dropWhile isPyWs).reverse.dropWhile isPyWs).reverse

/-- Helper for `pySplit`: scans the string, accumulating the current token in
reverse in `acc`; whitespace terminates the current token (if any). -/
def splitWsAux : Str → Str → List Str
  | [], acc => if acc.isEmpty then [] else [acc.reverse]
  | c :: cs, acc =>
    if isPyWs c then
      if acc.isEmpty then splitWsAux cs [] else acc.reverse :: splitWsAux cs []
    else
      splitWsAux cs (c :: acc)

/-- Python `text.split()` with no argument: the whitespace-separated tokens,
with no empty tokens.  This is how python-telegram-bot produces
`context.args` from the message text following the command. -/
def pySplit (s : Str) : List Str := splitWsAux s []

/-- Python `" ".join(tokens)` (`src/bot.py` lines 147 and 171). -/
def joinSpace : List Str → Str
  | [] => []
  | [t] => t
  | t :: u :: ts => t ++ ' ' :: joinSpace (u :: ts)

/-- A row of the `thoughts` table (`src/bot.py` lines 55-57):
`id INTEGER PRIMARY KEY AUTOINCREMENT, chat_id INTEGER, timestamp TEXT, text TEXT`.
The timestamp is the local Hong Kong instant of `datetime.now(TIMEZONE)`. -/
structure ThoughtRow where
  id : Nat
  chat_id : Int
  timestamp : Nat
  text : Str
deriving DecidableEq

/-- A row of the `reminders` table (`src/bot.py` lines 58-60):
`id INTEGER PRIMARY KEY AUTOINCREMENT, chat_id INTEGER, time_str TEXT, message TEXT`.
Note the schema has no `active` and no `next_fire_at` column. -/
structure ReminderRow where
  id : Nat
  chat_id : Int
  time_str : Str
  message : Str
deriving DecidableEq

/-- The persistent SQLite database `bot_data.db`: the two tables plus their
`AUTOINCREMENT` counters (SQLite assigns ids 1, 2, ...). -/
structure DB where
  thoughts : List ThoughtRow
  reminders : List ReminderRow
  nextThoughtId : Nat
  nextReminderId : Nat
deriving DecidableEq

/-- An armed `job_queue.run_once` timer (`src/bot.py` lines 160-164).  The job
is named `f"remind_{chat_id}"` in the source; the name is never used to cancel
or deduplicate jobs, so it is determined by the `chat_id` field and not
carried separately.  `run_once(when=delay)` fires at `now + delay`, and the
source computes `delay = (target - now).total_seconds()`, so the timer fires
at the absolute instant `target`, carried here as `fireAt`. -/
structure Timer where
  chat_id : Int
  message : Str
  fireAt : Nat
deriving DecidableEq

/-- The long-lived process: the database plus the live set of armed timers
held by the job queue. -/
structure ProcState where
  db : DB
  timers : List Timer
deriving DecidableEq

/-- Error taxonomy of the spec (section 7).  The source surfaces validation
failures as user-facing reply messages ("Usage: ..."), which the spec's
taxonomy identifies with `ValidationError`. -/
inductive BotError
  | ValidationError
  | NotFoundError
deriving DecidableEq

/-- Startup failure: `raise ValueError("BOT_TOKEN not set!")` (`src/bot.py`
line 201). -/
inductive StartupError
  | MissingToken
deriving DecidableEq

/-- Seconds in a day and in the Hong Kong UTC offset. -/
def daySecs : Nat := 86400

/-- The fixed `+08:00` offset of Asia/Hong_Kong, in seconds. -/
def hkOffset : Nat := 8 * 3600

/-- The local (Asia/Hong_Kong) calendar-day number of a local instant:
`datetime.now(TIMEZONE).date()`. -/
def localDate (ts : Nat) : Nat := ts / daySecs

/-- SQLite `DATE(timestamp)` applied to the stored isoformat string.  The
stored string carries the `+08:00` offset, and SQLite's date functions convert
a time string with a timezone offset to UTC before taking the calendar date,
so this is the UTC day number of the instant, not the Hong Kong day number. -/
def sqliteDate (ts : Nat) : Nat := (ts - hkOffset) / daySecs

/-- Lines 52-62, `init_db()`: `CREATE TABLE IF NOT EXISTS` for both tables.
On the relational model the tables always exist, and existing rows are
preserved, so this is the identity on the database. -/
def init_db (db : DB) : DB := db

/-- Lines 64-71, `save_thought(chat_id, text)`: inserts a row with
`datetime.now(TIMEZONE).isoformat()` and `text.strip()`.  Note the only
validation (non-empty args) lives in the caller `thought_command`. -/
def save_thought (db : DB) (chat_id : Int) (now : Nat) (text : Str) : DB :=
  { db with
    thoughts := db.thoughts ++ [⟨db.nextThoughtId, chat_id, now, pyStrip text⟩]
    nextThoughtId := db.nextThoughtId + 1 }

/-- Descending timestamp order used by `ORDER BY timestamp DESC`. -/
def tsGE (a b : ThoughtRow) : Prop := b.timestamp ≤ a.timestamp

/-- Ascending timestamp order used by `ORDER BY timestamp`. -/
def tsLE (a b : ThoughtRow) : Prop := a.timestamp ≤ b.timestamp

instance : DecidableRel tsGE := fun a b => Nat.decLe b.timestamp a.timestamp

instance : DecidableRel tsLE := fun a b => Nat.decLe a.timestamp b.timestamp

instance : IsTotal ThoughtRow tsGE :=
  ⟨fun a b => (Nat.le_total b.timestamp a.timestamp).imp id id⟩

instance : IsTrans ThoughtRow tsGE :=
  ⟨fun _ _ _ h1 h2 => Nat.le_trans h2 h1⟩

instance : IsTotal ThoughtRow tsLE :=
  ⟨fun a b => (Nat.le_total a.timestamp b.timestamp).imp id id⟩

instance : IsTrans ThoughtRow tsLE :=
  ⟨fun _ _ _ h1 h2 => Nat.le_trans h1 h2⟩

/-- Lines 73-83, `get_thoughts(chat_id, today_only)`.  With `today_only` the
query is `WHERE chat_id = ? AND DATE(timestamp) = ? ORDER BY timestamp`, where
the bound date is `datetime.now(TIMEZONE).date().isoformat()` — a Hong Kong
local date compared against SQLite's UTC `DATE()` of each row.  Without it the
query is `WHERE chat_id = ? ORDER BY timestamp DESC LIMIT 30`.  `ORDER BY` is
modelled as a stable sort on the instant (see the header note on isoformat
string ordering). -/
def get_thoughts (db : DB) (chat_id : Int) (today_only : Bool) (now : Nat) :
    List ThoughtRow :=
  if today_only then
    List.insertionSort tsLE
      (db.thoughts.filter fun r =>
        r.chat_id == chat_id && sqliteDate r.timestamp == localDate now)
  else
    (List.insertionSort tsGE
      (db.thoughts.filter fun r => r.chat_id == chat_id)).take 30

/-- Lines 167-173, `thought_command`.  The transport layer supplies
`context.args`, the whitespace-split tokens of the message text after the
command; `raw` is that text.  Empty `args` replies with the usage message and
stores nothing (surfaced as `ValidationError` per the spec's taxonomy);
otherwise the tokens are re-joined with single spaces and saved. -/
def thought_command (db : DB) (chat_id : Int) (now : Nat) (raw : Str) :
    Except BotError DB :=
  let args := pySplit raw
  if args.isEmpty then
    .error .ValidationError
  else
    .ok (save_thought db chat_id now (joinSpace args))

/-- Lines 185-193, `all_thoughts`: fetches `get_thoughts(chat_id)` (no date
filter, fixed `LIMIT 30`) and reports `Last {len(thoughts)} thoughts` — the
reported count is the length of the returned list, not the total number of
stored rows for the chat.  The `now` argument is irrelevant to this branch. -/
def all_thoughts (db : DB) (chat_id : Int) : List ThoughtRow × Nat :=
  let thoughts := get_thoughts db chat_id false 0
  (thoughts, thoughts.length)

/-- Lines 154-158: `target = strptime(f"{now.date()} {time_str}")` placed on
the current local calendar day, then `if target < now: target +=
timedelta(days=1)`.  `h` and `m` are the hour and minute parsed from
`time_str` by `strptime(time_str, "%H:%M")` (line 149); `now` has second
granularity while `target` is minute aligned.  Note the strict `<`: when
`target == now` the target is not advanced. -/
def compute_target (h m now : Nat) : Nat :=
  let target := (now / daySecs) * daySecs + (h * 3600 + m * 60)
  if target < now then target + daySecs else target

/-- Validity of the `strptime(time_str, "%H:%M")` check (line 149). -/
def validHM (h m : Nat) : Prop := h < 24 ∧ m < 60

/-- Lines 142-165, `remind_command`, after its two validations have passed
(at least two args, parseable `HH:MM`): computes the target instant and arms a
`run_once` timer for it.  No statement writes to `db.reminders` — the reminder
is held only by the in-memory job queue. -/
def remind_command (st : ProcState) (chat_id : Int) (now : Nat) (h m : Nat)
    (message : Str) : ProcState :=
  { st with timers := st.timers ++ [⟨chat_id, message, compute_target h m now⟩] }

/-- A message pushed to a chat by the bot. -/
structure Delivery where
  chat_id : Int
  text : Str
deriving DecidableEq

/-- The text sent by the fire callback: `f"Reminder: {message}"` (line 161). -/
def reminderText (message : Str) : Str :=
  [ 'R', 'e', 'm', 'i', 'n', 'd', 'e', 'r', ':', ' '] ++ message

/-- Line 161, the `run_once` callback: sends `f"Reminder: {message}"` to the
chat and nothing else.  The one-shot job is consumed by the job queue; no
`next_fire_at` is recomputed, nothing is persisted, and no new timer is
armed. -/
def fire_timer (st : ProcState) (t : Timer) : ProcState × Delivery :=
  ({ st with timers := st.timers.erase t }, ⟨t.chat_id, reminderText t.message⟩)

/-- Lines 198-217, `main()`: runs `init_db()`, then raises
`ValueError("BOT_TOKEN not set!")` when `not TOKEN` (the env var is unset or
empty) before building the application, and otherwise registers the handlers
and begins polling.  No statement loads reminder rows or arms timers, so the
serving process starts with an empty live timer set. -/
def main (db : DB) (token : Option Str) : Except StartupError ProcState :=
  let db := init_db db
  match token with
  | none => .error .MissingToken
  | some t => if t.isEmpty then .error .MissingToken else .ok ⟨db, []⟩

/-- The empty freshly-initialised database. -/
def emptyDB : DB := ⟨[], [], 1, 1⟩

deriving instance DecidableEq for Except

instance (h m : Nat) : Decidable (validHM h m) := by
  unfold validHM; infer_instance

/-- Modelled from the spec: the scheduler state needed by `cancel` (section
4.4).  `src/bot.py` contains no cancel operation at all — no command handler,
function, or SQL statement deactivates a reminder — so the reminder rows'
`active` flag and the live timer id set are taken from the spec's data model
(section 3), projected to the fields `cancel` touches. -/
structure SchedRow where
  id : Nat
  active : Bool
deriving DecidableEq

/-- Modelled from the spec: the scheduler's durable rows plus the ids of its
live armed timers (sections 3 and 4.4). -/
structure Sched where
  rows : List SchedRow
  timerIds : List Nat
deriving DecidableEq

/-- Modelled from the spec: the row rewrite performed by `cancel` — the row
with the cancelled id has its `active` flag cleared, other rows are kept. -/
def deactivate (rid : Nat) (q : SchedRow) : SchedRow :=
  if q.id == rid then { q with active := false } else q

/-- Modelled from the spec: `cancel(id)` (section 4.4), absent from
`src/bot.py`.  Disarms the live timer if present and marks the row
`active=false`; cancelling an unknown or already-inactive id fails with
`NotFoundError`. -/
def cancel (s : Sched) (rid : Nat) : Except BotError Sched :=
  match s.rows.find? (fun r => r.id == rid) with
  | none => .error .NotFoundError
  | some r =>
    if r.active then
      .ok ⟨s.rows.map (deactivate rid),
           s.timerIds.filter (fun t => ! (t == rid))⟩
    else
      .error .NotFoundError

/-- A scheduler holding one active reminder (id 1) with its armed timer. -/
def schedEx : Sched := ⟨[⟨1, true⟩], [1]⟩

/-- A database holding 31 journal rows for chat 1 (ids 1..31, increasing
timestamps), one more than the hardcoded `LIMIT 30`. -/
def db31 : DB := ⟨(List.range 31).map (fun i => ⟨i + 1, 1, 1000 + i, ['t']⟩), [], 32, 1⟩

/-- The most recent of the 31 rows of `db31`. -/
def rowNewest : ThoughtRow := ⟨31, 1, 1030, ['t']⟩

/-- A thought recorded at 00:30 local (Hong Kong) time on local day 20000. -/
def rowEarly : ThoughtRow := ⟨1, 1, 20000 * daySecs + 1800, ['x']⟩

/-- A database holding only `rowEarly`. -/
def dbEarly : DB := ⟨[rowEarly], [], 2, 1⟩

/-- A database whose `reminders` table holds one persisted row (id 1,
chat 42, time `08:30`, message `hi`), as left behind by a previous process
run; the schema has no `active` column, so every stored row is active. -/
def dbWithReminder : DB := ⟨[], [⟨1, 42, ['0', '8', ':', '3', '0'], ['h', 'i']⟩], 1, 2⟩

/-- Every token produced by `splitWsAux` is non-empty and free of whitespace,
provided the accumulator is. -/
theorem splitWsAux_tokens :
    ∀ (s : Str) (acc : Str), (∀ c ∈ acc, isPyWs c = false) →
      ∀ t ∈ splitWsAux s acc, t ≠ [] ∧ ∀ c ∈ t, isPyWs c = false := by
  intro s
  induction s with
  | nil =>
    intro acc hacc t ht
    unfold splitWsAux at ht
    by_cases ha : acc.isEmpty
    · simp [ha] at ht
    · simp [ha] at ht
      subst ht
      refine ⟨?_, ?_⟩
      · simpa [List.reverse_eq_nil_iff] using
          (by simpa [List.isEmpty_iff] using ha : acc ≠ [])
      · intro c hc
        exact hacc c (List.mem_reverse.mp hc)
  | cons c cs ih =>
    intro acc hacc t ht
    unfold splitWsAux at ht
    by_cases hw : isPyWs c
    · by_cases ha : acc.isEmpty
      · simp [hw, ha] at ht
        exact ih [] (by simp) t ht
      · simp [hw, ha] at ht
        rcases ht with ht | ht
        · subst ht
          refine ⟨?_, ?_⟩
          · simpa [List.reverse_eq_nil_iff] using
              (by simpa [List.isEmpty_iff] using ha : acc ≠ [])
          · intro d hd
            exact hacc d (List.mem_reverse.mp hd)
        · exact ih [] (by simp) t ht
    · simp [hw] at ht
      refine ih (c :: acc) ?_ t ht
      intro d hd
      rcases List.mem_cons.mp hd with rfl | hd
      · simpa using hw
      · exact hacc d hd

/-- Every token of `pySplit s` is non-empty and free of whitespace. -/
theorem pySplit_tokens (s : Str) :
    ∀ t ∈ pySplit s, t ≠ [] ∧ ∀ c ∈ t, isPyWs c = false :=
  splitWsAux_tokens s [] (by simp)

/-- The split produces no tokens exactly when everything (input and
accumulator) is whitespace. -/
theorem splitWsAux_eq_nil_iff :
    ∀ (s : Str) (acc : Str),
      splitWsAux s acc = [] ↔ (acc.isEmpty ∧ ∀ c ∈ s, isPyWs c = true) := by
  intro s
  induction s with
  | nil =>
    intro acc
    unfold splitWsAux
    by_cases ha : acc.isEmpty <;> simp [ha]
  | cons c cs ih =>
    intro acc
    unfold splitWsAux
    by_cases hw : isPyWs c
    · by_cases ha : acc.isEmpty
      · simp [hw, ha, ih]
      · simp [hw, ha]
    · simp [hw, ih]

/-- The input splits into no tokens exactly when it is all whitespace. -/
theorem pySplit_eq_nil_iff (s : Str) :
    pySplit s = [] ↔ ∀ c ∈ s, isPyWs c = true := by
  unfold pySplit
  rw [splitWsAux_eq_nil_iff]
  simp

/-- Stripping yields the empty string exactly when the input is all
whitespace. -/
theorem pyStrip_eq_nil_iff (s : Str) :
    pyStrip s = [] ↔ ∀ c ∈ s, isPyWs c = true := by
  unfold pyStrip
  rw [List.reverse_eq_nil_iff, List.dropWhile_eq_nil_iff]
  have hsplit := List.takeWhile_append_dropWhile (p := isPyWs) (l := s)
  constructor
  · intro h c hc
    rw [← hsplit] at hc
    rcases List.mem_append.mp hc with h1 | h2
    · exact List.mem_takeWhile_imp h1
    · exact h c (List.mem_reverse.mpr h2)
  · intro h c hc
    refine h c ?_
    rw [← hsplit]
    exact List.mem_append.mpr (Or.inr (List.mem_reverse.mp hc))

/-- Joining a non-empty token list prepends the first token. -/
theorem joinSpace_append_form (t : Str) (ts : List Str) :
    ∃ rest, joinSpace (t :: ts) = t ++ rest := by
  cases ts with
  | nil => exact ⟨[], (List.append_nil t).symm⟩
  | cons u us => exact ⟨_, rfl⟩

/-- A joined non-empty list of good tokens starts with a non-whitespace
character. -/
theorem joinSpace_head_not_ws (toks : List Str)
    (hgood : ∀ t ∈ toks, t ≠ [] ∧ ∀ c ∈ t, isPyWs c = false) (hne : toks ≠ []) :
    ∃ c l2, joinSpace toks = c :: l2 ∧ isPyWs c = false := by
  cases toks with
  | nil => exact absurd rfl hne
  | cons t ts =>
    obtain ⟨htne, hchars⟩ := hgood t (by simp)
    obtain ⟨rest, hrest⟩ := joinSpace_append_form t ts
    cases ht : t with
    | nil => exact absurd ht htne
    | cons c t2 =>
      refine ⟨c, t2 ++ rest, ?_, hchars c (by simp [ht])⟩
      rw [ht] at hrest
      rw [hrest]
      simp

/-- A joined non-empty list of good tokens ends with a non-whitespace
character (stated on the reverse). -/
theorem joinSpace_reverse_head (toks : List Str)
    (hgood : ∀ t ∈ toks, t ≠ [] ∧ ∀ c ∈ t, isPyWs c = false) (hne : toks ≠ []) :
    ∃ c l2, (joinSpace toks).reverse = c :: l2 ∧ isPyWs c = false := by
  induction toks with
  | nil => exact absurd rfl hne
  | cons t ts ih =>
    cases ts with
    | nil =>
      obtain ⟨htne, hchars⟩ := hgood t (by simp)
      cases hr : t.reverse with
      | nil => exact absurd (List.reverse_eq_nil_iff.mp hr) htne
      | cons c l2 =>
        refine ⟨c, l2, ?_, ?_⟩
        · simpa [joinSpace] using hr
        · exact hchars c (by rw [← List.mem_reverse, hr]; simp)
    | cons u us =>
      obtain ⟨c, l2, hrev, hc⟩ :=
        ih (fun t2 ht2 => hgood t2 (List.mem_cons_of_mem t ht2)) (by simp)
      refine ⟨c, (l2 ++ [ ' ']) ++ t.reverse, ?_, hc⟩
      show (t ++ ' ' :: joinSpace (u :: us)).reverse = _
      simp [List.reverse_append, hrev]

/-- Stripping a joined list of good tokens is the identity: the first and last
characters are not whitespace. -/
theorem pyStrip_joinSpace (toks : List Str)
    (hgood : ∀ t ∈ toks, t ≠ [] ∧ ∀ c ∈ t, isPyWs c = false) :
    pyStrip (joinSpace toks) = joinSpace toks := by
  cases htoks : toks with
  | nil => rfl
  | cons t ts =>
    subst htoks
    obtain ⟨c, l2, he, hc⟩ := joinSpace_head_not_ws _ hgood (by simp)
    obtain ⟨c2, l3, he2, hc2⟩ := joinSpace_reverse_head _ hgood (by simp)
    rw [he] at he2
    unfold pyStrip
    rw [he, List.dropWhile_cons, if_neg (by simp [hc]), he2,
      List.dropWhile_cons, if_neg (by simp [hc2]), ← he2, List.reverse_reverse]

/-- Deactivation preserves the row id. -/
theorem deactivate_id (rid : Nat) (q : SchedRow) : (deactivate rid q).id = q.id := by
  unfold deactivate
  split <;> rfl

/-- Looking up the cancelled id after deactivating it finds the deactivated
copy of whatever was found before: the rewrite preserves every row's id. -/
theorem find_map_deactivate (rid : Nat) (rows : List SchedRow) :
    (rows.map (deactivate rid)).find? (fun r => r.id == rid) =
      (rows.find? (fun r => r.id == rid)).map (deactivate rid) := by
  induction rows with
  | nil => rfl
  | cons r rs ih =>
    rw [List.map_cons, List.find?_cons, List.find?_cons]
    have hid : ((deactivate rid r).id == rid) = (r.id == rid) := by
      rw [deactivate_id]
    rw [hid]
    cases hr : (r.id == rid : Bool)
    · exact ih
    · rfl

/-- C1 (code bug): with a persisted reminder row present (id 1), the process
startup `main` succeeds but arms no timer at all — the live timer set is
empty while the set of stored reminder ids is `{1}`, so reconciliation of
persisted reminders into live timers never happens and a restart loses every
persisted reminder. -/
theorem c1_startup_arms_no_timers :
    main dbWithReminder (some ['t']) = .ok ⟨dbWithReminder, []⟩ ∧
    dbWithReminder.reminders.map ReminderRow.id = [1] :=
  ⟨rfl, rfl⟩

/-- C2 (code bug): a successful `/remind 08:30 hi` from chat 42 arms exactly
one in-memory timer but leaves the database — in particular the `reminders`
table — completely unchanged: no durable row is written before the command
returns. -/
theorem c2_create_persists_nothing :
    (remind_command ⟨emptyDB, []⟩ 42 (20000 * daySecs + 43200) 8 30 ['h', 'i']).db
      = emptyDB ∧
    (remind_command ⟨emptyDB, []⟩ 42 (20000 * daySecs + 43200) 8 30 ['h', 'i']).timers.length
      = 1 :=
  ⟨rfl, rfl⟩

/-- C3 (counterexample): creating an `08:30` reminder at exactly `08:30:00`
local time (second 30600 of local day 20000) yields a target equal to `now`
itself — not an instant strictly after `now`, and not `08:30` of the following
day: the source's `target < now` comparison does not advance an exactly-equal
target, so the timer fires immediately. -/
theorem c3_counterexample :
    validHM 8 30 ∧
    compute_target 8 30 (20000 * daySecs + 30600) = 20000 * daySecs + 30600 ∧
    ¬ (20000 * daySecs + 30600 < compute_target 8 30 (20000 * daySecs + 30600)) := by
  refine ⟨by decide, by decide, by decide⟩

/-- C3 (amended): for every valid time of day and every `now`,
`compute_target` returns an instant no earlier than `now` and at most one
calendar day after it, and the result equals `now` (immediate fire) exactly
when `now` falls on the requested time of day at zero seconds; in every other
case the result is strictly after `now`. -/
theorem c3_compute_next_in_future (h m now : Nat) (hv : validHM h m) :
    now ≤ compute_target h m now ∧
    compute_target h m now ≤ now + daySecs ∧
    (compute_target h m now = now ↔ now % daySecs = h * 3600 + m * 60) := by
  obtain ⟨h24, m60⟩ := hv
  simp only [compute_target, daySecs] at *
  split <;> omega

/-- C3 (witness): the amended bounds evaluated at `08:30` and an arbitrary
concrete instant. -/
theorem c3_compute_next_in_future_witness :
    100000 ≤ compute_target 8 30 100000 ∧
    compute_target 8 30 100000 ≤ 100000 + daySecs ∧
    (compute_target 8 30 100000 = 100000 ↔ 100000 % daySecs = 8 * 3600 + 30 * 60) :=
  c3_compute_next_in_future 8 30 100000 (by decide)

/-- C4 (code bug): after the armed timer of a freshly created reminder fires,
the delivery is sent but the resulting process state is exactly the initial
one — empty timer set and unchanged (empty) database: `next_fire_at` is not
recomputed, nothing is persisted, and no timer is re-armed, so the reminder is
fired once and forgotten. -/
theorem c4_fire_never_rearms :
    (fire_timer (remind_command ⟨emptyDB, []⟩ 42 (20000 * daySecs + 43200) 8 30 ['h', 'i'])
        ⟨42, ['h', 'i'], compute_target 8 30 (20000 * daySecs + 43200)⟩).1
      = ⟨emptyDB, []⟩ ∧
    (fire_timer (remind_command ⟨emptyDB, []⟩ 42 (20000 * daySecs + 43200) 8 30 ['h', 'i'])
        ⟨42, ['h', 'i'], compute_target 8 30 (20000 * daySecs + 43200)⟩).2
      = ⟨42, reminderText ['h', 'i']⟩ := by
  refine ⟨?_, rfl⟩
  show ({ db := emptyDB, timers := List.erase _ _ } : ProcState) = _
  decide

/-- C6 (counterexample): recording the four-character input `a␣␣b` stores
`a␣b` — the internal double space is collapsed to a single space — whereas the
claim says the stored text is the input with only leading and trailing
whitespace removed, which for this input is the input itself. -/
theorem c6_counterexample :
    (thought_command emptyDB 1 1000 ['a', ' ', ' ', 'b']).map
        (fun db => db.thoughts.map ThoughtRow.text) = .ok [['a', ' ', 'b']] ∧
    pyStrip ['a', ' ', ' ', 'b'] = ['a', ' ', ' ', 'b'] ∧
    (['a', ' ', 'b'] : Str) ≠ pyStrip ['a', ' ', ' ', 'b'] := by
  refine ⟨rfl, rfl, by decide⟩

/-- C6 (amended): recording a thought stores the input normalized — trimmed
and with every internal whitespace run collapsed to a single space (the
whitespace-separated tokens rejoined) — and an input that is empty after
trimming fails with `ValidationError`, leaving the journal unchanged (the
error return carries no new state). -/
theorem c6_record_trims_and_collapses (db : DB) (chat_id : Int) (now : Nat) (input : Str) :
    (pyStrip input = [] →
      thought_command db chat_id now input = .error BotError.ValidationError) ∧
    (pyStrip input ≠ [] →
      thought_command db chat_id now input =
        .ok { db with
              thoughts := db.thoughts ++ [⟨db.nextThoughtId, chat_id, now,
                joinSpace (pySplit input)⟩]
              nextThoughtId := db.nextThoughtId + 1 }) := by
  have hiff : pySplit input = [] ↔ pyStrip input = [] := by
    rw [pySplit_eq_nil_iff, pyStrip_eq_nil_iff]
  constructor
  · intro hnil
    simp only [thought_command]
    rw [if_pos (by simpa [List.isEmpty_iff] using hiff.mpr hnil)]
  · intro hne
    have hs : pySplit input ≠ [] := fun hc => hne (hiff.mp hc)
    have hstr := pyStrip_joinSpace (pySplit input) (pySplit_tokens input)
    simp only [thought_command, save_thought, hstr]
    rw [if_neg (by simpa [List.isEmpty_iff] using hs)]

/-- C6 (witness): the amended behaviour evaluated on the concrete input
`␣␣hi␣`, which stores `hi`. -/
theorem c6_record_trims_and_collapses_witness :
    thought_command emptyDB 1 1000 [' ', ' ', 'h', 'i', ' '] =
      .ok { emptyDB with
            thoughts := emptyDB.thoughts ++ [⟨emptyDB.nextThoughtId, 1, 1000,
              joinSpace (pySplit [' ', ' ', 'h', 'i', ' '])⟩]
            nextThoughtId := emptyDB.nextThoughtId + 1 } :=
  (c6_record_trims_and_collapses emptyDB 1 1000 [' ', ' ', 'h', 'i', ' ']).2 (by decide)

/-- C9: startup with no `BOT_TOKEN` (or an empty one) fails with the fatal
`ValueError` before any serving state exists, and with a non-empty credential
present it proceeds to the serving state (whose timer set starts empty). -/
theorem c9_missing_token_is_fatal (db : DB) :
    main db none = .error StartupError.MissingToken ∧
    (∀ t : Str, t ≠ [] → main db (some t) = .ok ⟨db, []⟩) := by
  refine ⟨rfl, ?_⟩
  intro t ht
  simp only [main, init_db]
  rw [if_neg (by simpa [List.isEmpty_iff] using ht)]

/-- C9 (witness): startup evaluated with the token absent and with a concrete
one-character token. -/
theorem c9_missing_token_is_fatal_witness :
    main emptyDB none = .error StartupError.MissingToken ∧
    main emptyDB (some ['t']) = .ok ⟨emptyDB, []⟩ :=
  ⟨(c9_missing_token_is_fatal emptyDB).1,
    (c9_missing_token_is_fatal emptyDB).2 ['t'] (by decide)⟩

/-- C10: every thought recorded through the command interface stores exactly
the whitespace-separated tokens of the user's input rejoined with single
spaces: internal runs of spaces, tabs, or newlines are collapsed, not merely
trimmed at the ends. -/
theorem c10_stored_text_is_rejoined_tokens (db db2 : DB) (chat_id : Int) (now : Nat)
    (input : Str) (hok : thought_command db chat_id now input = .ok db2) :
    db2.thoughts.map ThoughtRow.text =
      db.thoughts.map ThoughtRow.text ++ [joinSpace (pySplit input)] := by
  simp only [thought_command] at hok
  by_cases hs : ((pySplit input).isEmpty : Bool)
  · rw [if_pos hs] at hok
    exact absurd hok (by simp)
  · rw [if_neg hs] at hok
    injection hok with hok
    subst hok
    simp [save_thought, pyStrip_joinSpace (pySplit input) (pySplit_tokens input)]

/-- C5: spec-modelled cancel semantics (the source has no cancel operation).
Cancelling an unknown id, or an id whose row is already inactive, fails with
`NotFoundError` and returns no new state; cancelling an id whose row is found
active succeeds, removes the id from the live timer set (disarming its timer
while keeping every other timer), clears the row's `active` flag while keeping
every other row unchanged, and a second cancel of the same id then fails with
`NotFoundError`. -/
theorem c5_cancel_semantics (s : Sched) (rid : Nat) :
    ((s.rows.find? fun r => r.id == rid) = none →
      cancel s rid = .error BotError.NotFoundError) ∧
    (∀ r, (s.rows.find? fun r2 => r2.id == rid) = some r → r.active = false →
      cancel s rid = .error BotError.NotFoundError) ∧
    (∀ r, (s.rows.find? fun r2 => r2.id == rid) = some r → r.active = true →
      cancel s rid = .ok ⟨s.rows.map (deactivate rid),
          s.timerIds.filter (fun t => ! (t == rid))⟩ ∧
        rid ∉ s.timerIds.filter (fun t => ! (t == rid)) ∧
        (∀ q ∈ s.rows.map (deactivate rid), q.id = rid → q.active = false) ∧
        (∀ q ∈ s.rows.map (deactivate rid), q.id ≠ rid → q ∈ s.rows) ∧
        (∀ t2 ∈ s.timerIds, t2 ≠ rid → t2 ∈ s.timerIds.filter (fun t => ! (t == rid))) ∧
        cancel ⟨s.rows.map (deactivate rid),
          s.timerIds.filter (fun t => ! (t == rid))⟩ rid = .error BotError.NotFoundError) := by
  refine ⟨?_, ?_, ?_⟩
  · intro h
    simp only [cancel, h]
  · intro r hf ha
    simp only [cancel, hf]
    rw [if_neg (by simp [ha])]
  · intro r hf ha
    refine ⟨?_, ?_, ?_, ?_, ?_, ?_⟩
    · simp only [cancel, hf]
      rw [if_pos ha]
    · simp [List.mem_filter]
    · intro q hq hid
      obtain ⟨q0, hq0, rfl⟩ := List.mem_map.mp hq
      by_cases h0 : (q0.id == rid : Bool)
      · simp [deactivate, h0]
      · simp only [deactivate] at hid ⊢
        rw [if_neg h0] at hid
        exact absurd hid (by simpa using h0)
    · intro q hq hne
      obtain ⟨q0, hq0, rfl⟩ := List.mem_map.mp hq
      by_cases h0 : (q0.id == rid : Bool)
      · refine absurd ?_ hne
        rw [deactivate_id]
        simpa using h0
      · simpa [deactivate, h0] using hq0
    · intro t2 ht2 hne
      rw [List.mem_filter]
      exact ⟨ht2, by simp [hne]⟩
    · have hprop := List.find?_some hf
      have hde : deactivate rid r = { r with active := false } := by
        simp only [deactivate]
        rw [if_pos hprop]
      simp only [cancel, find_map_deactivate, hf, Option.map_some', hde]
      rw [if_neg (by simp)]

/-- C5 (witness): a scheduler holding one active reminder with an armed timer;
the first cancel succeeds and disarms, the second fails with `NotFoundError`. -/
theorem c5_cancel_semantics_witness :
    cancel schedEx 1 = .ok ⟨[⟨1, false⟩], []⟩ ∧
    cancel ⟨[⟨1, false⟩], []⟩ 1 = .error BotError.NotFoundError := by
  have h := (c5_cancel_semantics schedEx 1).2.2 ⟨1, true⟩ (by decide) rfl
  exact ⟨h.1, h.2.2.2.2.2⟩

/-- C7 (counterexample): with 31 stored entries for a chat, the bulk query
returns 30 entries (the limit is hardcoded, with no limit parameter) and the
caller reports 30 — the number returned — not the total 31 stored for that
chat, so truncation is not indicated as the claim requires. -/
theorem c7_counterexample :
    (all_thoughts db31 1).1.length = 30 ∧
    (all_thoughts db31 1).2 = 30 ∧
    (db31.thoughts.filter (fun r => r.chat_id == 1)).length = 31 := by
  refine ⟨by decide, by decide, by decide⟩

/-- C7 (amended): the bulk query takes no limit parameter; it returns at most
30 entries (the hardcoded `LIMIT`), they are entries of the requested chat in
descending timestamp order, every stored entry of the chat that was left out
is no newer than every returned one, and the reported count is the length of
the returned list rather than the chat's total. -/
theorem c7_recent_is_top30_desc (db : DB) (chat_id : Int) :
    (all_thoughts db chat_id).2 = (all_thoughts db chat_id).1.length ∧
    (all_thoughts db chat_id).1.length ≤ 30 ∧
    List.Sorted tsGE (all_thoughts db chat_id).1 ∧
    (∀ r ∈ (all_thoughts db chat_id).1, r.chat_id = chat_id ∧ r ∈ db.thoughts) ∧
    (∀ r ∈ (all_thoughts db chat_id).1, ∀ q ∈ db.thoughts, q.chat_id = chat_id →
      q ∉ (all_thoughts db chat_id).1 → tsGE r q) := by
  have hdef : (all_thoughts db chat_id).1 =
      (List.insertionSort tsGE (db.thoughts.filter fun r => r.chat_id == chat_id)).take 30 :=
    rfl
  have hsort : List.Sorted tsGE
      (List.insertionSort tsGE (db.thoughts.filter fun r => r.chat_id == chat_id)) :=
    List.sorted_insertionSort tsGE _
  have hperm :=
    List.perm_insertionSort tsGE (db.thoughts.filter fun r => r.chat_id == chat_id)
  refine ⟨rfl, ?_, ?_, ?_, ?_⟩
  · rw [hdef, List.length_take]
    exact Nat.min_le_left _ _
  · rw [hdef]
    exact hsort.sublist (List.take_sublist _ _)
  · intro r hr
    rw [hdef] at hr
    have hrl := hperm.mem_iff.mp (List.mem_of_mem_take hr)
    have hm := List.mem_filter.mp hrl
    exact ⟨by simpa using hm.2, hm.1⟩
  · intro r hr q hq hqc hqn
    rw [hdef] at hr hqn
    have hqs : q ∈ List.insertionSort tsGE
        (db.thoughts.filter fun r => r.chat_id == chat_id) :=
      hperm.mem_iff.mpr (List.mem_filter.mpr ⟨hq, by simp [hqc]⟩)
    rw [← List.take_append_drop 30 (List.insertionSort tsGE
      (db.thoughts.filter fun r => r.chat_id == chat_id))] at hqs
    have hq_drop := (List.mem_append.mp hqs).resolve_left hqn
    have hpw : List.Pairwise tsGE
        ((List.insertionSort tsGE (db.thoughts.filter fun r => r.chat_id == chat_id)).take 30 ++
          (List.insertionSort tsGE (db.thoughts.filter fun r => r.chat_id == chat_id)).drop 30) := by
      rw [List.take_append_drop]
      exact hsort
    exact (List.pairwise_append.mp hpw).2.2 r hr q hq_drop

/-- C7 (witness): the most recent of the 31 rows of `db31` is among the 30
returned entries, belongs to chat 1, and is a stored row. -/
theorem c7_recent_is_top30_desc_witness :
    rowNewest ∈ (all_thoughts db31 1).1 ∧ rowNewest.chat_id = 1 ∧
      rowNewest ∈ db31.thoughts := by
  have h := (c7_recent_is_top30_desc db31 1).2.2.2.1 rowNewest (by decide)
  exact ⟨by decide, h.1, h.2⟩

/-- C8 (code bug): a thought recorded at 00:30 local (Hong Kong) time is not
returned by the same local day's query: the SQL filter compares SQLite's
`DATE(timestamp)` — the UTC calendar date, because the stored isoformat string
carries the `+08:00` offset — with the Hong Kong local query date, so the
row's local date equals the query date yet the row is omitted. -/
theorem c8_day_filter_uses_utc_date :
    get_thoughts dbEarly 1 true (20000 * daySecs + 43200) = [] ∧
    localDate rowEarly.timestamp = localDate (20000 * daySecs + 43200) ∧
    sqliteDate rowEarly.timestamp ≠ localDate (20000 * daySecs + 43200) ∧
    rowEarly ∈ dbEarly.thoughts ∧ rowEarly.chat_id = 1 := by
  refine ⟨by decide, by decide, by decide, by decide, by decide⟩

/-- C10 (witness): recording `␣hi` stores the single token `hi`. -/
theorem c10_stored_text_is_rejoined_tokens_witness :
    ((⟨[⟨1, 1, 5, ['h', 'i']⟩], [], 2, 1⟩ : DB).thoughts.map ThoughtRow.text =
      emptyDB.thoughts.map ThoughtRow.text ++ [joinSpace (pySplit [' ', 'h', 'i'])]) :=
  c10_stored_text_is_rejoined_tokens emptyDB ⟨[⟨1, 1, 5, ['h', 'i']⟩], [], 2, 1⟩ 1 5
    [' ', 'h', 'i'] (by decide)

end Bot
